import Mathlib

/-!
Shallow embedding, in Lean 4, of the SuperBrowser desktop browser shell
(adblocker.py, database.py, profiles.py, browser_tab.py, browser_window.py),
together with theorems settling the specification claims about it.

Python strings are modelled as Lean `String`, Python `None`-able values as
`Option`, raised exceptions as `Except`, and SQLite tables as explicit Lean
state passed through each operation.
-/

namespace ABrowser

/-! ## Ad blocker (adblocker.py) -/

/-- Substring containment on character lists, modelling the Python `in`
operator on strings: `containsSub hay needle` is true when `needle` occurs
contiguously inside `hay` (the empty needle occurs in every string). -/
def containsSub : List Char → List Char → Bool
  | [], needle => needle.isEmpty
  | c :: t, needle => needle.isPrefixOf (c :: t) || containsSub t needle

/-- The nine hard-coded keyword substrings of `AdBlocker.BLOCKED_KEYWORDS`. -/
def BLOCKED_KEYWORDS : List String :=
  ["doubleclick", "googlesyndication", "adservice", "adserver",
   "adsystem", "tracking", "analytics", "banner", "popup"]

/-- Models the Python `str.lower()` call used on the URL string, mapping each
character to its lowercase form. -/
def strLower (s : String) : String := ⟨s.data.map Char.toLower⟩

/-- State of an `AdBlocker` object: the single `enabled` flag. -/
structure AdBlocker where
  enabled : Bool
deriving DecidableEq

/-- Freshly constructed `AdBlocker()`: enabled is `True`. -/
def AdBlocker.init : AdBlocker := ⟨true⟩

/-- Models `AdBlocker.set_enabled`. -/
def AdBlocker.set_enabled (_a : AdBlocker) (e : Bool) : AdBlocker := ⟨e⟩

/-- Models `AdBlocker.interceptRequest`: returns `true` exactly when the
request is blocked.  `url` stands for `info.requestUrl().toString()`; the code
lowercases it and blocks when any keyword of `BLOCKED_KEYWORDS` is a substring.
A disabled blocker returns early and never blocks. -/
def interceptRequest (a : AdBlocker) (url : String) : Bool :=
  if !a.enabled then
    false
  else
    let url_str := strLower url
    BLOCKED_KEYWORDS.any fun keyword => containsSub url_str.data keyword.data

lemma containsSub_iff_infix (hay needle : List Char) :
    containsSub hay needle = true ↔ needle <:+: hay := by
  induction hay with
  | nil =>
    simp [containsSub, List.isEmpty_iff]
  | cons c t ih =>
    simp only [containsSub, Bool.or_eq_true, ih, List.isPrefixOf_iff_prefix]
    rw [List.infix_cons_iff]

lemma any_containsSub_iff (keys : List String) (hay : String) :
    (keys.any fun k => containsSub hay.data k.data) = true ↔
      ∃ k ∈ keys, k.data <:+: hay.data := by
  simp [List.any_eq_true, containsSub_iff_infix]

/-- C1 (amended): with the URL string lowercased first, the blocker blocks a
request iff it is enabled and some hard-coded keyword is a substring of the
lowercased URL string; in particular a disabled blocker never blocks. -/
theorem interceptRequest_blocks_iff (a : AdBlocker) (url : String) :
    interceptRequest a url = true ↔
      a.enabled = true ∧ ∃ k ∈ BLOCKED_KEYWORDS, k.data <:+: (strLower url).data := by
  rcases a with ⟨e⟩
  cases e with
  | false => simp [interceptRequest]
  | true => simp [interceptRequest, containsSub_iff_infix]

/-- C1 (counterexample): the enabled blocker blocks the URL
`https://x.com/TRACKING` even though no keyword of `BLOCKED_KEYWORDS` is a
substring of that URL string itself — matching is done on the lowercased
string, so the claim as stated (blocking iff the URL string contains a
keyword) is false. -/
theorem interceptRequest_case_insensitive_counterexample :
    interceptRequest AdBlocker.init "https://x.com/TRACKING" = true ∧
      ¬ ∃ k ∈ BLOCKED_KEYWORDS, k.data <:+: ("https://x.com/TRACKING").data := by
  constructor
  · decide
  · intro h
    rw [← any_containsSub_iff] at h
    exact absurd h (by decide)

/-! ## JSON values and the sessions table (database.py) -/

/-- JSON values as produced by `json.loads`.  Numbers are restricted to
integers in this model; no claim depends on non-integral numbers. -/
inductive JVal where
  | null
  | bool (b : Bool)
  | num (n : Int)
  | str (s : String)
  | arr (items : List JVal)
  | obj (entries : List (String × JVal))

/-- Models Python `dict.get(key, dflt)` on a parsed JSON object.  A dict built
by `json.loads` keeps the last binding of a repeated key, hence the reversed
search. -/
def dictGet (entries : List (String × JVal)) (key : String) (dflt : JVal) : JVal :=
  match entries.reverse.find? fun kv => kv.1 == key with
  | some kv => kv.2
  | none => dflt

/-- Exceptions that `load_session` can raise but does not catch. -/
inductive PyErr where
  | attributeError
  | typeError
deriving DecidableEq

/-- Models `isinstance(u, str)` extraction: the underlying string of a JSON
string value, and `none` for every other value. -/
def strOf? : JVal → Option String
  | .str s => some s
  | _ => none

/-- Models Python iteration `for u in tabs`: lists yield their elements,
strings yield their characters as one-character strings, dicts yield their
keys, and every other value raises `TypeError`. -/
def pyIter : JVal → Except PyErr (List JVal)
  | .arr l => .ok l
  | .str s => .ok (s.data.map fun c => JVal.str ⟨[c]⟩)
  | .obj kvs => .ok (kvs.map fun kv => JVal.str kv.1)
  | _ => .error .typeError

/-- The `sessions` SQL table: at most one row (its id is constrained to 1)
holding the TEXT payload and `updated_at`.  The payload TEXT is represented by
the result of `json.loads` on it: `Except.error ()` stands for a stored text
that is not valid JSON. -/
structure SessionsTable where
  row : Option (Except Unit JVal × String)

/-- Models `BrowserDatabase.save_session`: upserts the single row with payload
`json.dumps({"tabs": tabs})` and `updated_at := now`.  Since `json.dumps` of
this dict parses back to the same value, the stored payload is represented by
that value. -/
def save_session (_t : SessionsTable) (tabs : List String) (now : String) : SessionsTable :=
  ⟨some (.ok (.obj [("tabs", .arr (tabs.map .str))]), now)⟩

/-- Models `BrowserDatabase.load_session`: returns `[]` when no row exists or
the payload is not valid JSON (`json.JSONDecodeError` is caught); otherwise
evaluates `parsed.get("tabs", [])` — which raises `AttributeError` when the
parsed payload is not a dict — and then the comprehension
`[u for u in tabs if isinstance(u, str)]`. -/
def load_session (t : SessionsTable) : Except PyErr (List String) :=
  match t.row with
  | none => .ok []
  | some (.error _, _) => .ok []
  | some (.ok parsed, _) =>
    match parsed with
    | .obj kvs =>
      match pyIter (dictGet kvs "tabs" (.arr [])) with
      | .ok items => .ok (items.filterMap strOf?)
      | .error e => .error e
    | _ => .error .attributeError

lemma filterMap_strOf_map_str (l : List String) :
    List.filterMap (strOf? ∘ JVal.str) l = l := by
  induction l with
  | nil => rfl
  | cons x xs ih => simp [strOf?, Function.comp, ih]

/-- C2 (confirmed): saving a session and loading it back returns exactly the
saved list of tab URLs, in the same order, for every prior table state. -/
theorem load_session_save_session_roundtrip
    (t : SessionsTable) (tabs : List String) (now : String) :
    load_session (save_session t tabs now) = .ok tabs := by
  simp [load_session, save_session, dictGet, pyIter, List.find?,
    filterMap_strOf_map_str]

/-- C10 (amended): `load_session` returns `[]` when no row exists or the
payload is invalid JSON; when the payload parses to a dict it returns the
string entries of the iterated `tabs` value (dropping non-strings from a
list); but it raises `AttributeError` when the payload parses to a non-dict
JSON value, and `TypeError` when the `tabs` value is not iterable. -/
theorem load_session_behaviour :
    (load_session ⟨none⟩ = .ok []) ∧
    (∀ u, load_session ⟨some (.error (), u)⟩ = .ok []) ∧
    (∀ l u, load_session ⟨some (.ok (.obj [("tabs", .arr l)]), u)⟩ =
      .ok (l.filterMap strOf?)) ∧
    (∀ u, load_session ⟨some (.ok (.obj []), u)⟩ = .ok []) ∧
    (∀ u, load_session ⟨some (.ok (.obj [("tabs", .null)]), u)⟩ =
      .error .typeError) ∧
    (∀ n u, load_session ⟨some (.ok (.obj [("tabs", .num n)]), u)⟩ =
      .error .typeError) ∧
    (∀ l u, load_session ⟨some (.ok (.arr l), u)⟩ = .error .attributeError) ∧
    (∀ s u, load_session ⟨some (.ok (.str s), u)⟩ = .error .attributeError) ∧
    (∀ n u, load_session ⟨some (.ok (.num n), u)⟩ = .error .attributeError) ∧
    (∀ b u, load_session ⟨some (.ok (.bool b), u)⟩ = .error .attributeError) ∧
    (∀ u, load_session ⟨some (.ok .null, u)⟩ = .error .attributeError) := by
  refine ⟨rfl, fun u => rfl, fun l u => ?_, fun u => rfl, fun u => rfl,
    fun n u => rfl, fun l u => rfl, fun s u => rfl, fun n u => rfl,
    fun b u => rfl, fun u => rfl⟩
  simp [load_session, dictGet, pyIter, List.find?]

/-- C10 (counterexample): on a stored payload that is valid JSON but not a
dict — the text `[]`, which parses to the empty array — `load_session` raises
`AttributeError` instead of returning a list, so the claim that it never
raises is false. -/
theorem load_session_raises_counterexample :
    load_session ⟨some (.ok (.arr []), "2024-01-01T00:00:00")⟩ =
      .error .attributeError := rfl

/-! ## Session restore on launch (browser_window.py lines 86 to 91) -/

/-- Models the tab-opening loop of `BrowserWindow.__init__`: the session is
loaded unless in incognito mode; when the restored list is non-empty the first
ten of its URLs are opened as tabs in order, otherwise a single
`newtab://home` tab is opened.  Returns the list of opened tab URLs. -/
def launch_tab_urls (incognito : Bool) (session : List String) : List String :=
  let restored_tabs := if incognito then [] else session
  if restored_tabs.isEmpty then ["newtab://home"] else restored_tabs.take 10

/-- C3 (amended): outside incognito mode, a non-empty persisted session is
restored by opening its first `min 10 n` URLs, in the persisted order; an
empty persisted session opens the single `newtab://home` tab instead. -/
theorem launch_tab_urls_restoration (session : List String)
    (h : session ≠ []) :
    launch_tab_urls false session = session.take 10 ∧
      (launch_tab_urls false session).length = min session.length 10 ∧
      launch_tab_urls false [] = ["newtab://home"] := by
  refine ⟨?_, ?_, rfl⟩ <;>
    simp [launch_tab_urls, List.isEmpty_iff, h, Nat.min_comm]

/-- C3 (witness): instantiation of the restoration theorem at a concrete
three-URL session. -/
theorem launch_tab_urls_restoration_witness :
    launch_tab_urls false ["https://a.example", "https://b.example",
        "https://c.example"] =
      ["https://a.example", "https://b.example", "https://c.example"] :=
  (launch_tab_urls_restoration
    ["https://a.example", "https://b.example", "https://c.example"]
    (by decide)).1

/-- C3 (counterexample): a persisted session of eleven URLs restores only ten
tabs, so the number of restored tabs is not the length of the persisted list. -/
theorem launch_tab_urls_truncation_counterexample :
    (launch_tab_urls false
        ["u1", "u2", "u3", "u4", "u5", "u6", "u7", "u8", "u9", "u10",
         "u11"]).length ≠
      (["u1", "u2", "u3", "u4", "u5", "u6", "u7", "u8", "u9", "u10",
        "u11"] : List String).length := by
  decide

/-! ## Table creation (database.py, `_initialize_database`) -/

/-- The table names of the four `CREATE TABLE IF NOT EXISTS` statements of
`BrowserDatabase._initialize_database`, in execution order. -/
def created_table_names : List String :=
  ["history", "bookmarks", "passwords", "sessions"]

/-- Models `BrowserDatabase._initialize_database` on the schema, seen as the
list of existing table names: each `CREATE TABLE IF NOT EXISTS` adds its table
when absent and leaves the schema unchanged when present. -/
def initialize_database (schema : List String) : List String :=
  created_table_names.foldl (fun s n => if n ∈ s then s else s ++ [n]) schema

/-- C4 (amended): initializing a fresh database creates exactly four tables,
named `history`, `bookmarks`, `passwords` and `sessions`. -/
theorem initialize_database_tables :
    initialize_database [] = ["history", "bookmarks", "passwords", "sessions"] ∧
      (initialize_database []).length = 4 := by
  constructor <;> rfl

/-- C4 (counterexample): no table named `session` (singular) is created on a
fresh database; the fourth table is named `sessions`. -/
theorem initialize_database_no_session_table :
    "session" ∉ initialize_database [] ∧ "sessions" ∈ initialize_database [] := by
  decide

/-! ## Passwords table (database.py, `add_password` / `get_password`) -/

/-- A row of the `passwords` table.  `id` is the AUTOINCREMENT primary key. -/
structure PasswordRow where
  id : Nat
  site : String
  username : String
  password : String
  created_at : String
deriving DecidableEq

/-- The `passwords` table: its rows in insertion order, together with the next
AUTOINCREMENT id. -/
structure PasswordsTable where
  rows : List PasswordRow
  next_id : Nat
deriving DecidableEq

/-- The `passwords` table of a freshly initialized database. -/
def PasswordsTable.empty : PasswordsTable := ⟨[], 1⟩

/-- Invariant maintained by SQLite AUTOINCREMENT: every existing row id is
below the next id to be assigned. -/
abbrev PasswordsTable.WF (t : PasswordsTable) : Prop :=
  ∀ r ∈ t.rows, r.id < t.next_id

/-- Models `BrowserDatabase.add_password`: inserts the site, username and
password verbatim, with `created_at := now` and the next AUTOINCREMENT id. -/
def add_password (t : PasswordsTable) (site username password now : String) :
    PasswordsTable :=
  ⟨t.rows ++ [⟨t.next_id, site, username, password, now⟩], t.next_id + 1⟩

/-- Models `ORDER BY id DESC LIMIT 1` followed by `fetchone`: the row with the
greatest id among the given rows, `none` when there are none. -/
def orderByIdDescFirst : List PasswordRow → Option PasswordRow
  | [] => none
  | r :: rest =>
    match orderByIdDescFirst rest with
    | none => some r
    | some m => if m.id < r.id then some r else some m

/-- Models `BrowserDatabase.get_password`: among the rows whose site matches,
the username and password of the one with the greatest id, or `none`. -/
def get_password (t : PasswordsTable) (site : String) : Option (String × String) :=
  match orderByIdDescFirst (t.rows.filter fun r => r.site == site) with
  | some r => some (r.username, r.password)
  | none => none

lemma orderByIdDescFirst_append_max (l : List PasswordRow) (r : PasswordRow)
    (h : ∀ x ∈ l, x.id < r.id) : orderByIdDescFirst (l ++ [r]) = some r := by
  induction l with
  | nil => rfl
  | cons x xs ih =>
    have hx : x.id < r.id := h x (by simp)
    have : orderByIdDescFirst (xs ++ [r]) = some r :=
      ih fun y hy => h y (by simp [hy])
    simp only [List.cons_append, orderByIdDescFirst, List.append_eq]
    rw [this]
    simp [Nat.lt_asymm hx]

/-- C5 (confirmed): on a well-formed table, after `add_password site u p`,
`get_password site` returns exactly `(u, p)` unchanged — the most recently
added entry for the site, even when older entries for the same site exist —
and `get_password` returns `none` on a table with no entry for the site. -/
theorem get_password_after_add_password (t : PasswordsTable)
    (site username password now : String) (h : t.WF) :
    get_password (add_password t site username password now) site =
        some (username, password) ∧
      ((∀ r ∈ t.rows, r.site ≠ site) → get_password t site = none) := by
  constructor
  · have hfilter :
        (t.rows ++ [(⟨t.next_id, site, username, password, now⟩ : PasswordRow)]).filter
            (fun r => r.site == site) =
          (t.rows.filter fun r => r.site == site) ++
            [⟨t.next_id, site, username, password, now⟩] := by
      simp [List.filter_append]
    have hmax :
        orderByIdDescFirst
            ((t.rows.filter fun r => r.site == site) ++
              [⟨t.next_id, site, username, password, now⟩]) =
          some ⟨t.next_id, site, username, password, now⟩ :=
      orderByIdDescFirst_append_max _ _
        (fun x hx => h x (List.mem_of_mem_filter hx))
    simp [get_password, add_password, hfilter, hmax]
  · intro hnone
    have : (t.rows.filter fun r => r.site == site) = [] := by
      rw [List.filter_eq_nil_iff]
      intro r hr
      simpa using hnone r hr
    simp [get_password, this, orderByIdDescFirst]

/-- C5 (witness): on a concrete table holding two entries for the same site,
`get_password` returns the later pair verbatim, and on the empty table it
returns `none`. -/
theorem get_password_after_add_password_witness :
    get_password
        (add_password (add_password PasswordsTable.empty "example.com" "alice"
          "hunter2" "t1") "example.com" "bob" "s3cret!" "t2") "example.com" =
      some ("bob", "s3cret!") ∧
    get_password PasswordsTable.empty "example.com" = none :=
  ⟨(get_password_after_add_password
      (add_password PasswordsTable.empty "example.com" "alice" "hunter2" "t1")
      "example.com" "bob" "s3cret!" "t2" (by decide)).1,
   (get_password_after_add_password PasswordsTable.empty "example.com" "x" "y"
      "z" (by decide)).2 (by decide)⟩

/-! ## Profile manager (profiles.py) -/

/-- The list of non-empty prefixes of a directory path (given as its
segments), shortest first: the directories that `mkdir(parents=True)` may have
to create. -/
def dirPrefixes : List String → List (List String)
  | [] => []
  | seg :: rest => [seg] :: (dirPrefixes rest).map fun q => seg :: q

/-- Models `pathlib.Path.mkdir` on a filesystem seen as the list of existing
directories (each a list of path segments).  With `exist_ok=False` an existing
target raises; with `parents=False` a missing parent raises; otherwise the
target and its missing ancestors are created. -/
def mkdir (fs : List (List String)) (p : List String)
    (parents exist_ok : Bool) : Except Unit (List (List String)) :=
  if p ∈ fs then
    if exist_ok then .ok fs else .error ()
  else if parents then
    .ok (fs ++ (dirPrefixes p).filter fun q => !(fs.contains q))
  else if p.dropLast ∈ fs ∨ p.dropLast = [] then
    .ok (fs ++ [p])
  else
    .error ()

/-- A `ProfileManager` object: the profile name and the `profiles/<name>`
path it computed. -/
structure ProfileManager where
  profile_name : String
  profile_path : List String
deriving DecidableEq

/-- Models the `ProfileManager.storage_path` property. -/
def ProfileManager.storage_path (pm : ProfileManager) : List String :=
  pm.profile_path

/-- Models the `ProfileManager.database_path` property:
`profile_path / "browser.db"`. -/
def ProfileManager.database_path (pm : ProfileManager) : List String :=
  pm.profile_path ++ ["browser.db"]

/-- Models `ProfileManager.__init__`: computes `profiles/<name>` and calls
`mkdir(parents=True, exist_ok=True)` on it, returning the updated filesystem
and the constructed object. -/
def profileManagerInit (fs : List (List String)) (name : String) :
    Except Unit (List (List String) × ProfileManager) :=
  let profile_path := ["profiles", name]
  match mkdir fs profile_path true true with
  | .ok fsNew => .ok (fsNew, ⟨name, profile_path⟩)
  | .error e => .error e

/-- C6 (confirmed): constructing `ProfileManager(name)` never fails — in
particular not when the directory already exists — and afterwards the
directory `profiles/<name>` exists, every previously existing directory still
exists, `storage_path` is `profiles/<name>` and `database_path` is
`profiles/<name>/browser.db`. -/
theorem profileManagerInit_creates_directory (fs : List (List String))
    (name : String) :
    ∃ fsNew,
      profileManagerInit fs name = .ok (fsNew, ⟨name, ["profiles", name]⟩) ∧
      ["profiles", name] ∈ fsNew ∧
      (∀ d ∈ fs, d ∈ fsNew) ∧
      ProfileManager.storage_path ⟨name, ["profiles", name]⟩ =
        ["profiles", name] ∧
      ProfileManager.database_path ⟨name, ["profiles", name]⟩ =
        ["profiles", name, "browser.db"] := by
  by_cases hmem : ["profiles", name] ∈ fs
  · exact ⟨fs, by simp [profileManagerInit, mkdir, hmem], hmem,
      fun d hd => hd, rfl, rfl⟩
  · refine ⟨fs ++ (dirPrefixes ["profiles", name]).filter
        fun q => !(fs.contains q), by simp [profileManagerInit, mkdir, hmem],
      ?_, fun d hd => List.mem_append_left _ hd, rfl, rfl⟩
    refine List.mem_append_right _ ?_
    rw [List.mem_filter]
    exact ⟨by simp [dirPrefixes], by simpa using hmem⟩

/-! ## Shared tab profile lifecycle (browser_tab.py) -/

/-- A `QWebEngineProfile` object as configured by `BrowserTab`: an identity
(`id`, modelling Python object identity by creation order), whether it is the
off-the-record constructor that was used, the storage name passed to the
constructor, and the two paths set afterwards. -/
structure WebEngineProfile where
  id : Nat
  off_the_record : Bool
  storage_name : Option String
  persistent_storage_path : Option String
  cache_path : Option String
deriving DecidableEq

/-- The class-level state of `BrowserTab`: the shared profile, the shared ad
blocker (with its object identity), the key of the current profile, and the
next free object identity. -/
structure TabClassState where
  shared_profile : Option WebEngineProfile
  shared_adblocker : Option (Nat × AdBlocker)
  profile_key : Option (String × Bool)
  next_id : Nat
deriving DecidableEq

/-- Object identities held in the state are below the creation counter. -/
abbrev TabClassState.WF (st : TabClassState) : Prop :=
  (∀ p ∈ st.shared_profile, p.id < st.next_id) ∧
  (∀ a ∈ st.shared_adblocker, a.1 < st.next_id)

/-- Models `BrowserTab.reset_profile`: drops the shared profile, the shared ad
blocker and the profile key. -/
def reset_profile (st : TabClassState) : TabClassState :=
  { st with shared_profile := none, shared_adblocker := none,
            profile_key := none }

/-- Models `BrowserTab._ensure_profile`: keeps the state unchanged when a
shared profile exists and the stored key equals `(storage_path, incognito)`;
otherwise resets and builds a fresh profile (off-the-record in incognito mode,
a storage-backed one with persistent-storage and cache paths otherwise) and a
fresh enabled ad blocker, and stores the requested key. -/
def ensure_profile (st : TabClassState) (storage_path : String)
    (incognito : Bool) : TabClassState :=
  let profile_key := (storage_path, incognito)
  if st.shared_profile.isSome ∧ st.profile_key = some profile_key then
    st
  else
    let st1 := reset_profile st
    let prof : WebEngineProfile :=
      if incognito then
        ⟨st1.next_id, true, none, none, none⟩
      else
        ⟨st1.next_id, false, some storage_path, some storage_path,
         some (storage_path ++ "/cache")⟩
    { st1 with
      shared_profile := some prof,
      shared_adblocker := some (st1.next_id + 1, AdBlocker.init),
      profile_key := some profile_key,
      next_id := st1.next_id + 2 }

/-- C7 (confirmed): on a well-formed class state, `_ensure_profile` keeps the
shared profile and ad blocker unchanged exactly when the requested key matches
the stored one and a shared profile exists; otherwise it installs a fresh
profile and a fresh ad blocker — neither identical to the previous objects —
and stores the requested key. -/
theorem ensure_profile_lifecycle (st : TabClassState) (storage_path : String)
    (incognito : Bool) (h : st.WF) :
    (st.shared_profile.isSome ∧ st.profile_key = some (storage_path, incognito) →
      ensure_profile st storage_path incognito = st) ∧
    (¬(st.shared_profile.isSome ∧
        st.profile_key = some (storage_path, incognito)) →
      (ensure_profile st storage_path incognito).profile_key =
          some (storage_path, incognito) ∧
      ∃ p ab,
        (ensure_profile st storage_path incognito).shared_profile = some p ∧
        (ensure_profile st storage_path incognito).shared_adblocker = some ab ∧
        ab.2 = AdBlocker.init ∧
        (∀ q ∈ st.shared_profile, q.id ≠ p.id) ∧
        (∀ b ∈ st.shared_adblocker, b.1 ≠ ab.1)) := by
  constructor
  · intro hkeep
    simp [ensure_profile, hkeep]
  · intro hmiss
    rw [ensure_profile]
    simp only [if_neg hmiss]
    cases incognito with
    | false =>
      refine ⟨by trivial, ⟨st.next_id, false, some storage_path,
        some storage_path, some (storage_path ++ "/cache")⟩,
        (st.next_id + 1, AdBlocker.init), by trivial, by trivial, by trivial,
        ?_, ?_⟩
      · intro q hq
        exact Nat.ne_of_lt (h.1 q hq)
      · intro b hb
        exact Nat.ne_of_lt (Nat.lt_succ_of_lt (h.2 b hb))
    | true =>
      refine ⟨by trivial, ⟨st.next_id, true, none, none, none⟩,
        (st.next_id + 1, AdBlocker.init), by trivial, by trivial, by trivial,
        ?_, ?_⟩
      · intro q hq
        exact Nat.ne_of_lt (h.1 q hq)
      · intro b hb
        exact Nat.ne_of_lt (Nat.lt_succ_of_lt (h.2 b hb))

/-- C7 (witness): from a concrete state keyed to the default profile, a
request for the same key keeps the state unchanged, and a request for a
different storage path installs a fresh profile with the new key. -/
theorem ensure_profile_lifecycle_witness :
    (ensure_profile
        ⟨some ⟨0, false, some "profiles/default", some "profiles/default",
           some "profiles/default/cache"⟩, some (1, AdBlocker.init),
         some ("profiles/default", false), 2⟩ "profiles/default" false =
      ⟨some ⟨0, false, some "profiles/default", some "profiles/default",
         some "profiles/default/cache"⟩, some (1, AdBlocker.init),
       some ("profiles/default", false), 2⟩) ∧
    (ensure_profile
        ⟨some ⟨0, false, some "profiles/default", some "profiles/default",
           some "profiles/default/cache"⟩, some (1, AdBlocker.init),
         some ("profiles/default", false), 2⟩ "profiles/work"
        false).profile_key = some ("profiles/work", false) :=
  ⟨(ensure_profile_lifecycle
      ⟨some ⟨0, false, some "profiles/default", some "profiles/default",
         some "profiles/default/cache"⟩, some (1, AdBlocker.init),
       some ("profiles/default", false), 2⟩ "profiles/default" false
      ⟨by decide, by decide⟩).1 (by decide),
   ((ensure_profile_lifecycle
      ⟨some ⟨0, false, some "profiles/default", some "profiles/default",
         some "profiles/default/cache"⟩, some (1, AdBlocker.init),
       some ("profiles/default", false), 2⟩ "profiles/work" false
      ⟨by decide, by decide⟩).2 (by decide)).1⟩

/-! ## Download handling (browser_window.py, `handle_download`) -/

/-- Observable outcome of `BrowserWindow.handle_download` on the download
object and the window: whether `cancel()` or `accept()` was called, the
directory and file name set on the download, whether a `DownloadItemWidget`
was added to the panel, and whether the download dock was shown. -/
structure DownloadOutcome where
  cancelled : Bool
  accepted : Bool
  download_directory : Option String
  download_file_name : Option String
  widget_added : Bool
  panel_shown : Bool
deriving DecidableEq

/-- Models Python `path.rsplit(separator, 1)` followed by unpacking into two
names: splits at the last occurrence of `sep`, and is `none` — the unpacking
raises `ValueError` — when `sep` does not occur. -/
def rsplitOnce (sep : Char) : List Char → Option (List Char × List Char)
  | [] => none
  | c :: rest =>
    match rsplitOnce sep rest with
    | some (d, f) => some (c :: d, f)
    | none => if c = sep then some ([], rest) else none

/-- Models `BrowserWindow.handle_download`.  `path` is the string returned by
the save-file dialog (empty when the dialog was cancelled).  An empty path
cancels the download and changes nothing else; otherwise the path is split at
its last backslash (when it holds one) or slash into directory and file name,
the download is configured and accepted, and a progress widget is added to
the shown download panel. -/
def handle_download (path : String) : Except Unit DownloadOutcome :=
  if path = "" then
    .ok ⟨true, false, none, none, false, false⟩
  else
    let separator : Char := if path.data.contains '\\' then '\\' else '/'
    match rsplitOnce separator path.data with
    | none => .error ()
    | some (d, f) => .ok ⟨false, true, some ⟨d⟩, some ⟨f⟩, true, true⟩

lemma rsplitOnce_none_iff (sep : Char) (s : List Char) :
    rsplitOnce sep s = none ↔ sep ∉ s := by
  induction s with
  | nil => simp [rsplitOnce]
  | cons c rest ih =>
    simp only [rsplitOnce, List.mem_cons]
    cases hr : rsplitOnce sep rest with
    | some p => simp [← ih.not_left, hr]
    | none =>
      have hsep : sep ∉ rest := ih.mp hr
      by_cases hc : c = sep
      · simp [hc]
      · simp [hc, hsep]
        exact fun h => hc h.symm

lemma rsplitOnce_eq (sep : Char) (s : List Char) (d f : List Char)
    (h : rsplitOnce sep s = some (d, f)) :
    d ++ sep :: f = s ∧ sep ∉ f := by
  induction s generalizing d f with
  | nil => simp [rsplitOnce] at h
  | cons c rest ih =>
    simp only [rsplitOnce] at h
    cases hr : rsplitOnce sep rest with
    | some p =>
      rcases p with ⟨d0, f0⟩
      rw [hr] at h
      rcases ih d0 f0 hr with ⟨hs, hf⟩
      cases h
      exact ⟨by simpa using hs, hf⟩
    | none =>
      rw [hr] at h
      by_cases hc : c = sep
      · rw [if_pos hc] at h
        cases h
        exact ⟨by simp [hc], (rsplitOnce_none_iff sep rest).mp hr⟩
      · rw [if_neg hc] at h
        cases h

/-- C8 (confirmed): when the save-file dialog is cancelled, the download is
cancelled, nothing is configured or accepted, no widget is added and the
panel stays hidden; when a path is chosen — dialog paths contain a separator
— the directory and file name are set by splitting the path at its last
separator occurrence (so directory, separator and file name rebuild the
chosen path), the download is accepted, a widget is added and the panel is
shown. -/
theorem handle_download_outcome (path : String)
    (hsep : path ≠ "" → '\\' ∈ path.data ∨ '/' ∈ path.data) :
    (handle_download "" = .ok ⟨true, false, none, none, false, false⟩) ∧
    (path ≠ "" →
      ∃ d f sep,
        handle_download path = .ok ⟨false, true, some d, some f, true, true⟩ ∧
        d.data ++ sep :: f.data = path.data ∧ sep ∉ f.data) := by
  refine ⟨rfl, fun hne => ?_⟩
  have hs : (if path.data.contains '\\' then '\\' else '/') ∈ path.data := by
    by_cases hb : path.data.contains '\\'
    · rw [if_pos hb]
      simpa using hb
    · rw [if_neg hb]
      rcases hsep hne with h | h
      · exact absurd (by simpa using h) hb
      · exact h
  set sep := if path.data.contains '\\' then '\\' else '/' with hsepdef
  cases hrs : rsplitOnce sep path.data with
  | none => exact absurd hs ((rsplitOnce_none_iff sep path.data).mp hrs)
  | some p =>
    rcases p with ⟨d, f⟩
    rcases rsplitOnce_eq sep path.data d f hrs with ⟨hjoin, hnof⟩
    refine ⟨⟨d⟩, ⟨f⟩, sep, ?_, hjoin, hnof⟩
    rw [handle_download, if_neg hne]
    simp only [← hsepdef, hrs]

/-- C8 (witness): instantiation at the empty path and at the concrete chosen
path `/tmp/file.txt`. -/
theorem handle_download_outcome_witness :
    (handle_download "" = .ok ⟨true, false, none, none, false, false⟩) ∧
    (∃ d f sep,
      handle_download "/tmp/file.txt" =
          .ok ⟨false, true, some d, some f, true, true⟩ ∧
        d.data ++ sep :: f.data = ("/tmp/file.txt").data ∧ sep ∉ f.data) :=
  ⟨(handle_download_outcome "" (fun h => absurd rfl h)).1,
   (handle_download_outcome "/tmp/file.txt" (fun _ => Or.inr (by decide))).2
     (by decide)⟩

/-! ## Bookmark replacement (database.py, `replace_bookmarks`) -/

/-- A committed row of the `bookmarks` table as written by
`replace_bookmarks` (the AUTOINCREMENT id plays no role in the claim and is
omitted). -/
structure BookmarkRow where
  title : String
  url : String
  folder : String
  position : Int
  created_at : String
deriving DecidableEq, Inhabited

/-- The value found under the `position` key of an input dict.  This model
restricts position values to JSON integers and null; `int()` accepts the
former and raises `TypeError` on the latter. -/
inductive PosVal where
  | pint (n : Int)
  | pnull
deriving DecidableEq

/-- Models the Python `int()` conversion on a `PosVal`: `none` stands for the
raised exception. -/
def pyInt : PosVal → Option Int
  | .pint n => some n
  | .pnull => none

/-- An input dict passed to `replace_bookmarks`: each field is `none` when the
key is absent, so that `row.get(key, default)` falls back to the default. -/
structure BookmarkRowIn where
  title : Option String
  url : Option String
  folder : Option String
  position : Option PosVal
  created_at : Option String
deriving DecidableEq

/-- The converted `position` of an input row:
`int(row.get("position", 0))`. -/
def positionOf (row : BookmarkRowIn) : Option Int :=
  pyInt (row.position.getD (.pint 0))

/-- Models one `INSERT` of the `replace_bookmarks` loop: the defaults
`Untitled`, the empty URL, `Favorites`, position `0` and
`datetime.utcnow().isoformat()` (passed as `now`) are applied for missing
keys; `none` stands for the exception raised by `int()`. -/
def insertRow (now : String) (row : BookmarkRowIn) : Option BookmarkRow :=
  match positionOf row with
  | none => none
  | some p =>
    some ⟨row.title.getD "Untitled", row.url.getD "", row.folder.getD "Favorites",
      p, row.created_at.getD now⟩

/-- The `DELETE` plus `INSERT` loop of `replace_bookmarks` running inside the
open transaction: `working` is the in-transaction table contents; `none`
stands for an exception aborting the loop. -/
def replaceLoop (now : String) (working : List BookmarkRow) :
    List BookmarkRowIn → Option (List BookmarkRow)
  | [] => some working
  | row :: rest =>
    match insertRow now row with
    | none => none
    | some r => replaceLoop now (working ++ [r]) rest

/-- Models `BrowserDatabase.replace_bookmarks`: the `with self._connect()`
block commits the delete-and-reinsert transaction on success and rolls it
back — restoring the committed table — when an exception is raised. -/
def replace_bookmarks (committed : List BookmarkRow)
    (bookmarks : List BookmarkRowIn) (now : String) : List BookmarkRow :=
  match replaceLoop now [] bookmarks with
  | some working => working
  | none => committed

lemma replaceLoop_eq_none_iff (now : String) (working : List BookmarkRow)
    (rows : List BookmarkRowIn) :
    replaceLoop now working rows = none ↔
      ∃ row ∈ rows, insertRow now row = none := by
  induction rows generalizing working with
  | nil => simp [replaceLoop]
  | cons r rest ih =>
    simp only [replaceLoop]
    cases hr : insertRow now r with
    | none => simp [hr]
    | some b => simp [hr, ih]

lemma replaceLoop_eq_some (now : String) (working : List BookmarkRow)
    (rows : List BookmarkRowIn) (h : ∀ row ∈ rows, (insertRow now row).isSome) :
    replaceLoop now working rows =
      some (working ++ rows.map fun row => (insertRow now row).getD default) := by
  induction rows generalizing working with
  | nil => simp [replaceLoop]
  | cons r rest ih =>
    have hr : (insertRow now r).isSome := h r (by simp)
    rcases Option.isSome_iff_exists.mp hr with ⟨b, hb⟩
    simp only [replaceLoop, hb]
    rw [ih (working ++ [b]) fun row hrow => h row (by simp [hrow])]
    simp [hb]

/-- C9 (confirmed): `replace_bookmarks` is atomic.  If converting the position
of any input row raises, the whole transaction — the initial `DELETE` and the
prior `INSERT`s — is rolled back and the table is exactly as before; if every
row converts, the table afterwards contains exactly the input rows, in order,
with the defaults applied for missing fields. -/
theorem replace_bookmarks_atomic (committed : List BookmarkRow)
    (bookmarks : List BookmarkRowIn) (now : String) :
    ((∃ row ∈ bookmarks, positionOf row = none) →
      replace_bookmarks committed bookmarks now = committed) ∧
    ((∀ row ∈ bookmarks, positionOf row ≠ none) →
      replace_bookmarks committed bookmarks now =
        bookmarks.map fun row =>
          ⟨row.title.getD "Untitled", row.url.getD "",
           row.folder.getD "Favorites", (positionOf row).getD 0,
           row.created_at.getD now⟩) := by
  constructor
  · rintro ⟨row, hmem, hpos⟩
    have : replaceLoop now [] bookmarks = none :=
      (replaceLoop_eq_none_iff now [] bookmarks).mpr
        ⟨row, hmem, by simp [insertRow, hpos]⟩
    simp [replace_bookmarks, this]
  · intro hall
    have hsome : ∀ row ∈ bookmarks, (insertRow now row).isSome := by
      intro row hrow
      rcases hp : positionOf row with _ | p
      · exact absurd hp (hall row hrow)
      · simp [insertRow, hp]
    rw [replace_bookmarks, replaceLoop_eq_some now [] bookmarks hsome]
    simp only [List.nil_append]
    refine List.map_congr_left fun row hrow => ?_
    rcases hp : positionOf row with _ | p
    · exact absurd hp (hall row hrow)
    · simp [insertRow, hp]

/-- C9 (witness): a row whose position is null rolls the table back to its
previous single row, and two convertible rows replace it by exactly their
contents with defaults applied. -/
theorem replace_bookmarks_atomic_witness :
    replace_bookmarks [⟨"Old", "https://old.example", "Favorites", 0, "t0"⟩]
        [⟨some "A", some "https://a.example", none, some .pnull, none⟩]
        "t1" =
      [⟨"Old", "https://old.example", "Favorites", 0, "t0"⟩] ∧
    replace_bookmarks [⟨"Old", "https://old.example", "Favorites", 0, "t0"⟩]
        [⟨some "A", some "https://a.example", none, some (.pint 2), some "t2"⟩,
         ⟨none, none, some "Work", none, none⟩] "t1" =
      [⟨"A", "https://a.example", "Favorites", 2, "t2"⟩,
       ⟨"Untitled", "", "Work", 0, "t1"⟩] :=
  ⟨(replace_bookmarks_atomic
      [⟨"Old", "https://old.example", "Favorites", 0, "t0"⟩]
      [⟨some "A", some "https://a.example", none, some .pnull, none⟩]
      "t1").1 ⟨⟨some "A", some "https://a.example", none, some .pnull, none⟩,
        by simp, by decide⟩,
   (replace_bookmarks_atomic
      [⟨"Old", "https://old.example", "Favorites", 0, "t0"⟩]
      [⟨some "A", some "https://a.example", none, some (.pint 2), some "t2"⟩,
       ⟨none, none, some "Work", none, none⟩]
      "t1").2 (by decide)⟩

end ABrowser
